import Mathlib

/-!
# Verification of the TOTP authentication / session subsystem

Shallow embedding of the Supabase edge functions of this repository:

* `totp-verify` (TOTP setup / verification / session issuing, rate limiting),
* the session-gated `admin-operations` mutation service,
* the `upload-image` service (magic-byte content sniffing).

JavaScript numbers are modelled as `Nat` (all quantities involved are
non-negative machine integers well below 2^53; 32-bit wrap-around in the
SHA-1 core is made explicit with `% 2^32`).  Timestamps are milliseconds
since the Unix epoch.  The persistence layer (Supabase tables) is modelled
as an explicit `DB` state threaded through the handlers; fallible storage
calls are modelled by a `Faults` record saying which call errors.
-/

namespace Portfolio

/-! ## Bit/byte helpers -/

/-- Two to the thirty-second power, the modulus of JavaScript 32-bit ops. -/
def pow32 : Nat := 4294967296

/-- Rotate a 32-bit word left by `n` bits. -/
def rotl32 (n x : Nat) : Nat :=
  ((x <<< n) ||| (x >>> (32 - n))) % pow32

/-- Big-endian bits of a value, `w` bits wide (most significant first). -/
def natToBits (w n : Nat) : List Bool :=
  (List.range w).map (fun i => n.testBit (w - 1 - i))

/-- Reassemble a big-endian bit list into a number. -/
def bitsToNat (bs : List Bool) : Nat :=
  bs.foldl (fun a b => 2 * a + (if b then 1 else 0)) 0

/-- Big-endian 4-byte decomposition of a 32-bit word. -/
def wordToBytes (w : Nat) : List Nat :=
  [(w >>> 24) % 256, (w >>> 16) % 256, (w >>> 8) % 256, w % 256]

/-- The 8-byte big-endian counter buffer built by the source's
`for (let i = 7; i >= 0; i--) { timeBuffer[i] = t & 0xff; t = Math.floor(t / 256); }`
loop (for non-negative `t`). -/
def counterBytes (t : Nat) : List Nat :=
  (List.range 8).map (fun i => (t >>> (8 * (7 - i))) % 256)

/-! ## Base32 decoding (`base32Decode`)

The source uppercases, strips trailing `=` padding, maps every character
through `"ABCDEFGHIJKLMNOPQRSTUVWXYZ234567".indexOf`, silently skipping
characters outside the alphabet, concatenates the 5-bit values, and keeps
`floor(bits/8)` whole bytes.  Stripping `=` first is subsumed by the skip,
since `=` is not in the alphabet. -/

def base32Alphabet : List Char :=
  ['A','B','C','D','E','F','G','H','I','J','K','L','M',
   'N','O','P','Q','R','S','T','U','V','W','X','Y','Z',
   '2','3','4','5','6','7']

/-- `alphabet.indexOf(char)` on the uppercased character, `none` for -1. -/
def base32CharVal (c : Char) : Option Nat :=
  (base32Alphabet.indexOf? c.toUpper).map (fun i => i)

/-- Whole bytes from a big-endian bit stream; a trailing group of fewer
than 8 bits is discarded (the `floor(bits/8)` of the source). -/
def bitsToBytes : List Bool → List Nat
  | b0 :: b1 :: b2 :: b3 :: b4 :: b5 :: b6 :: b7 :: rest =>
      bitsToNat [b0, b1, b2, b3, b4, b5, b6, b7] :: bitsToBytes rest
  | _ => []

def base32Decode (s : String) : List Nat :=
  bitsToBytes ((s.data.filterMap base32CharVal).map (natToBits 5)).flatten

/-! ## SHA-1 and HMAC-SHA-1

The edge functions call WebCrypto (`crypto.subtle`) for HMAC-SHA-1; the
primitive is embedded here directly (FIPS 180-4 SHA-1, RFC 2104 HMAC with
the 64-byte block size used for SHA-1). -/

/-- Group a big-endian byte list into 32-bit words. -/
def bytesToWords : List Nat → List Nat
  | b0 :: b1 :: b2 :: b3 :: rest =>
      ((b0 % 256) * 16777216 + (b1 % 256) * 65536 + (b2 % 256) * 256 + b3 % 256)
        :: bytesToWords rest
  | _ => []

/-- 72 zero bytes at most are ever needed; fuel-driven chunking keeps the
definition structurally recursive so that it reduces inside `decide`. -/
def chunksAux : Nat → List Nat → List (List Nat)
  | 0, _ => []
  | _, [] => []
  | fuel + 1, l => l.take 64 :: chunksAux fuel (l.drop 64)

/-- Split a byte list into 64-byte blocks. -/
def chunks64 (l : List Nat) : List (List Nat) :=
  chunksAux l.length l

/-- Message schedule, most recent word first: each new word is
`rotl1 (w[j-3] ^ w[j-8] ^ w[j-14] ^ w[j-16])`, which sit at positions
2, 7, 13 and 15 of the reversed accumulator. -/
def sha1ExtendAux : Nat → List Nat → List Nat
  | 0, acc => acc
  | fuel + 1, acc =>
      sha1ExtendAux fuel
        (rotl32 1 ((acc.getD 2 0) ^^^ (acc.getD 7 0) ^^^
                   (acc.getD 13 0) ^^^ (acc.getD 15 0)) :: acc)

/-- Message schedule: extend 16 words to 80 (in round order). -/
def sha1Schedule (ws : List Nat) : List Nat :=
  (sha1ExtendAux 64 ws.reverse).reverse

/-- One SHA-1 round. -/
def sha1Round (w : Nat) (i : Nat) (st : Nat × Nat × Nat × Nat × Nat) :
    Nat × Nat × Nat × Nat × Nat :=
  let a := st.1
  let b := st.2.1
  let c := st.2.2.1
  let d := st.2.2.2.1
  let e := st.2.2.2.2
  let f :=
    if i < 20 then (b &&& c) ||| ((b ^^^ 4294967295) &&& d)
    else if i < 40 then b ^^^ c ^^^ d
    else if i < 60 then (b &&& c) ||| (b &&& d) ||| (c &&& d)
    else b ^^^ c ^^^ d
  let k :=
    if i < 20 then 1518500249
    else if i < 40 then 1859775393
    else if i < 60 then 2400959708
    else 3395469782
  let temp := (rotl32 5 a + f + e + k + w) % pow32
  (temp, a, rotl32 30 b, c, d)

/-- Run the 80 rounds, consuming the schedule front to back. -/
def sha1RoundsAux : Nat → List Nat → Nat × Nat × Nat × Nat × Nat →
    Nat × Nat × Nat × Nat × Nat
  | _, [], st => st
  | i, w :: ws, st => sha1RoundsAux (i + 1) ws (sha1Round w i st)

/-- Compress one 64-byte block into the running state. -/
def sha1Compress (h : List Nat) (block : List Nat) : List Nat :=
  let init : Nat × Nat × Nat × Nat × Nat :=
    (h.getD 0 0, h.getD 1 0, h.getD 2 0, h.getD 3 0, h.getD 4 0)
  let fin := sha1RoundsAux 0 (sha1Schedule (bytesToWords block)) init
  [(h.getD 0 0 + fin.1) % pow32,
   (h.getD 1 0 + fin.2.1) % pow32,
   (h.getD 2 0 + fin.2.2.1) % pow32,
   (h.getD 3 0 + fin.2.2.2.1) % pow32,
   (h.getD 4 0 + fin.2.2.2.2) % pow32]

/-- Merkle–Damgård padding: `0x80`, zeros to 56 mod 64, 8-byte bit length. -/
def sha1Pad (msg : List Nat) : List Nat :=
  let ml := msg.length
  let zeros := (119 - ml % 64) % 64
  msg ++ [128] ++ List.replicate zeros 0 ++
    (List.range 8).map (fun i => ((8 * ml) >>> (8 * (7 - i))) % 256)

/-- SHA-1 digest (20 bytes) of a byte list. -/
def sha1 (msg : List Nat) : List Nat :=
  let hs := (chunks64 (sha1Pad msg)).foldl sha1Compress
    [1732584193, 4023233417, 2562383102, 271733878, 3285377520]
  (hs.map wordToBytes).flatten

/-- HMAC-SHA-1 (RFC 2104) with SHA-1's 64-byte block size. -/
def hmacSha1 (key msg : List Nat) : List Nat :=
  let k0 := if key.length > 64 then sha1 key else key
  let k := k0 ++ List.replicate (64 - k0.length) 0
  sha1 ((k.map (fun b => b ^^^ 92)) ++ sha1 ((k.map (fun b => b ^^^ 54)) ++ msg))

/-! ## TOTP code derivation -/

/-- RFC 4226 dynamic truncation, exactly as in the source:
`offset = hmac[19] & 0x0f`, 31-bit big-endian integer from 4 bytes. -/
def dynamicTruncate (h : List Nat) : Nat :=
  let off := (h.getD 19 0) &&& 15
  ((h.getD off 0 &&& 127) <<< 24) ||| ((h.getD (off + 1) 0 &&& 255) <<< 16) |||
    ((h.getD (off + 2) 0 &&& 255) <<< 8) ||| (h.getD (off + 3) 0 &&& 255)

/-- `padStart(6, "0")` of the decimal representation. -/
def padSixDigits (n : Nat) : String :=
  let s := toString n
  String.mk (List.replicate (6 - s.length) '0') ++ s

/-- The 6-digit TOTP code of a Base32 `secret` at HOTP counter `counter`
(the body shared by `generateTOTP` and the inline previous-window
computation in the `verify` action). -/
def totpAt (secret : String) (counter : Nat) : String :=
  padSixDigits
    (dynamicTruncate (hmacSha1 (base32Decode secret) (counterBytes counter)) % 1000000)

/-- `generateTOTP(secret)` at wall-clock time `nowMs` (milliseconds):
counter = `Math.floor(Date.now() / 1000 / 30)`. -/
def generateTOTP (secret : String) (nowMs : Nat) : String :=
  totpAt secret (nowMs / 30000)

/-- `verifyTOTP(code, secret)` (`admin-operations`/`upload-image`; the
`verify` action of `totp-verify` inlines the same check): accept the code
of the current counter or of the immediately preceding one.  The previous
counter is modelled with truncated subtraction; this matches the source's
arithmetic whenever `nowMs ≥ 30000`, i.e. except within 30 seconds of the
Unix epoch. -/
def verifyTOTP (code secret : String) (nowMs : Nat) : Bool :=
  code == totpAt secret (nowMs / 30000) || code == totpAt secret (nowMs / 30000 - 1)

/-! ## Persistent state

One `DB` value models the Supabase tables the three edge functions touch.
Key/value tables (`admin_secrets`, `site_settings`, `social_links`) are
association lists; the other tables are row lists.  A JSON string field
that is absent is modelled as `none`; JavaScript truthiness of such a
field (`if (!x)`) is `jsTruthy`. -/

/-- JavaScript truthiness of an optional string: present and non-empty. -/
def jsTruthy (o : Option String) : Bool :=
  !(o.getD "" == "")

/-- An absent optional string is falsy. -/
lemma jsTruthy_none : jsTruthy none = false := rfl

/-- Row of the `auth_attempts` table. -/
structure AuthAttempt where
  ipAddress : String
  action : String
  success : Bool
  createdAt : Nat
deriving Repr, DecidableEq

/-- Row of the `admin_sessions` table. -/
structure Session where
  sessionToken : String
  expiresAt : Nat
deriving Repr, DecidableEq

/-- Object stored in the `site-images` storage bucket. -/
structure StoredFile where
  path : String
  content : List Nat
  contentType : String
deriving Repr, DecidableEq

/-- Row of the `projects` table. -/
structure Project where
  id : String
  title : String
  description : Option String
  image_url : Option String
  category : Option String
  link : Option String
deriving Repr, DecidableEq

/-- Row of the `project_images` table. -/
structure ProjectImage where
  id : String
  project_id : String
  image_url : String
  is_primary : Bool
  display_order : Nat
deriving Repr, DecidableEq

/-- Row of the `categories` table. -/
structure Category where
  id : String
  name : String
  is_default : Bool
deriving Repr, DecidableEq

/-- The storage reachable from the edge functions. -/
structure DB where
  adminSecrets : List (String × String) := []
  siteSettings : List (String × String) := []
  authAttempts : List AuthAttempt := []
  sessions : List Session := []
  projects : List Project := []
  projectImages : List ProjectImage := []
  categories : List Category := []
  socialLinks : List (String × String) := []
  storage : List StoredFile := []
deriving Repr, DecidableEq

/-- `.select().eq("key", k).maybeSingle()` on a key/value table. -/
def lookupKV (kv : List (String × String)) (k : String) : Option String :=
  (kv.find? (fun p => p.1 == k)).map (·.2)

/-- `.upsert({key, value}, { onConflict: "key" })` on a key/value table. -/
def upsertKV (kv : List (String × String)) (k v : String) : List (String × String) :=
  if (kv.find? (fun p => p.1 == k)).isSome then
    kv.map (fun p => if p.1 == k then (k, v) else p)
  else
    kv ++ [(k, v)]

/-- Which storage calls error on this request (the persistence layer is
fallible; a flag set means the corresponding Supabase call reports an
error object / throws). -/
structure Faults where
  rateLimitRead : Bool := false
  attemptInsert : Bool := false
  adminSecretsUpsert : Bool := false
  siteSettingsUpsert : Bool := false
deriving Repr, DecidableEq

/-- No storage fault. -/
def noFaults : Faults := {}

/-! ## Rate limiter (`checkRateLimit`, `logAttempt`) -/

/-- Milliseconds in the 5-minute rate-limit window. -/
def RATE_WINDOW_MS : Nat := 300000

/-- Number of `auth_attempts` rows for this identity with `success = false`
and `created_at >= now - 5min` (the `.gte` bound of the source;
`now - RATE_WINDOW_MS` truncates at 0 just as the SQL comparison admits
every row when the window start predates all timestamps). -/
def recentFailures (ip : String) (db : DB) (now : Nat) : Nat :=
  (db.authAttempts.filter
    (fun a => a.ipAddress == ip && a.success == false &&
      decide (now - RATE_WINDOW_MS ≤ a.createdAt))).length

/-- `checkRateLimit(ipAddress)`: on a read error, reports
`{ blocked: false, attemptsCount: 0 }`; otherwise blocked iff at least 5
recent failures. -/
def checkRateLimit (ip : String) (f : Faults) (db : DB) (now : Nat) : Bool × Nat :=
  if f.rateLimitRead then (false, 0)
  else (decide (5 ≤ recentFailures ip db now), recentFailures ip db now)

/-- `logAttempt(ipAddress, success)`: appends a row; an insert error is
caught and swallowed (`try/catch` with only a `console.error`). -/
def logAttemptDb (ip : String) (success : Bool) (f : Faults) (now : Nat) (db : DB) : DB :=
  if f.attemptInsert then db
  else { db with authAttempts := db.authAttempts ++ [⟨ip, "totp_verify", success, now⟩] }

/-! ## Secret store accessor (`getTOTPSecret`) -/

/-- `getTOTPSecret()`: `admin_secrets` first; a missing row or a falsy
(empty) value falls back to `site_settings`; `value || null` there maps an
empty value to absent. -/
def getTOTPSecret (db : DB) : Option String :=
  let fromSettings :=
    match lookupKV db.siteSettings "totp_secret" with
    | some v => if v == "" then none else some v
    | none => none
  match lookupKV db.adminSecrets "totp_secret" with
  | some v => if v == "" then fromSettings else some v
  | none => fromSettings

/-! ## Session manager (`validateSession`, `createSession`, `extendSession`) -/

/-- Session duration: 30 minutes, in milliseconds. -/
def SESSION_DURATION_MS : Nat := 1800000

/-- `validateSession(sessionToken)` (identical in `totp-verify` and
`admin-operations`): falsy token is invalid; otherwise look the token up
and require `expires_at > now`.  An unknown token yields `false`, not an
error. -/
def validateSessionDb (tok : Option String) (db : DB) (now : Nat) : Bool :=
  if !jsTruthy tok then false
  else
    match db.sessions.find? (fun s => s.sessionToken == tok.getD "") with
    | none => false
    | some s => decide (now < s.expiresAt)

/-- `createSession()` with the fresh random token passed in explicitly:
first delete every session with `expires_at < now` (opportunistic garbage
collection), then insert the new row with `expires_at = now + 30min`. -/
def createSessionDb (tok : String) (now : Nat) (db : DB) : DB :=
  { db with sessions :=
      (db.sessions.filter (fun s => decide (now ≤ s.expiresAt))) ++
        [⟨tok, now + SESSION_DURATION_MS⟩] }

/-- `extendSession(sessionToken)`: set `expires_at = now + 30min` on every
row with this token (a no-op when the token no longer exists). -/
def extendSessionDb (tok : String) (now : Nat) (db : DB) : DB :=
  let upd : Session → Session := fun s =>
    if s.sessionToken == tok then { s with expiresAt := now + SESSION_DURATION_MS } else s
  { db with sessions := db.sessions.map upd }

/-! ## The `totp-verify` service -/

/-- JSON request body of `totp-verify`. -/
structure TotpRequest where
  action : String
  code : Option String := none
  secret : Option String := none
  sessionToken : Option String := none
deriving Repr, DecidableEq

/-- Observable JSON response of `totp-verify` (absent fields are `none`). -/
structure TotpResponse where
  status : Nat := 200
  configured : Option Bool := none
  secretOut : Option String := none
  valid : Option Bool := none
  sessionToken : Option String := none
  rateLimited : Option Bool := none
  success : Option Bool := none
  error : Option String := none
deriving Repr, DecidableEq

/-- The `check` action: report whether a secret is configured. -/
def checkAction (db : DB) : TotpResponse × DB :=
  ({ configured := some (getTOTPSecret db).isSome }, db)

/-- The `validate_session` action: validate, and extend on success. -/
def validateSessionAction (tok : Option String) (now : Nat) (db : DB) :
    TotpResponse × DB :=
  let ok := validateSessionDb tok db now
  ({ valid := some ok },
   if ok then extendSessionDb (tok.getD "") now db else db)

/-- The `setup` action: reject a falsy secret; upsert into `admin_secrets`
(an error there is only logged), then into `site_settings` (an error there
aborts with 500); finally create a session. -/
def setupAction (secret : Option String) (now : Nat) (freshToken : String)
    (f : Faults) (db : DB) : TotpResponse × DB :=
  if !jsTruthy secret then
    ({ status := 400, error := some "Missing secret" }, db)
  else
    let v := secret.getD ""
    let db1 :=
      if f.adminSecretsUpsert then db
      else { db with adminSecrets := upsertKV db.adminSecrets "totp_secret" v }
    if f.siteSettingsUpsert then
      ({ status := 500, error := some "Failed to save secret" }, db1)
    else
      let db2 := { db1 with siteSettings := upsertKV db1.siteSettings "totp_secret" v }
      ({ success := some true, sessionToken := some freshToken },
       createSessionDb freshToken now db2)

/-- The `verify` action: rate-limit gate, missing-code check, secret
resolution (request secret if truthy, else the stored one), comparison
against the current and previous window codes, attempt logging, session
creation on success. -/
def verifyAction (code secret : Option String) (ip : String) (now : Nat)
    (freshToken : String) (f : Faults) (db : DB) : TotpResponse × DB :=
  let rl := checkRateLimit ip f db now
  if rl.1 then
    ({ status := 429, valid := some false, rateLimited := some true,
       error := some "Too many failed attempts. Please wait 5 minutes." }, db)
  else if !jsTruthy code then
    ({ status := 400, valid := some false, error := some "Missing code" }, db)
  else
    let secretOpt := if jsTruthy secret then secret else getTOTPSecret db
    match secretOpt with
    | none =>
        ({ status := 400, valid := some false, error := some "TOTP not configured" }, db)
    | some totpSecret =>
        let c := code.getD ""
        let isValid := verifyTOTP c totpSecret now
        let db2 := logAttemptDb ip isValid f now db
        if isValid then
          ({ valid := some true, sessionToken := some freshToken },
           createSessionDb freshToken now db2)
        else
          ({ valid := some false }, db2)

/-- The request handler of `totp-verify` (the `serve` callback body, after
JSON parsing; `freshSecret` and `freshToken` stand for the values drawn
from `crypto.getRandomValues`). -/
def totpVerifyServe (req : TotpRequest) (ip : String) (now : Nat)
    (freshSecret freshToken : String) (f : Faults) (db : DB) :
    TotpResponse × DB :=
  if req.action == "check" then checkAction db
  else if req.action == "validate_session" then
    validateSessionAction req.sessionToken now db
  else if req.action == "generate" then
    ({ secretOut := some freshSecret }, db)
  else if req.action == "setup" then
    setupAction req.secret now freshToken f db
  else if req.action == "verify" then
    verifyAction req.code req.secret ip now freshToken f db
  else
    ({ status := 400, error := some "Invalid action" }, db)


/-! ## The `upload-image` service -/

/-- `MAX_FILE_SIZE = 5 * 1024 * 1024`. -/
def MAX_FILE_SIZE : Nat := 5242880

/-- A multipart `File` part: the client-chosen file name and declared MIME
type travel with the bytes (the handler reads only `size` and the bytes). -/
structure FileData where
  name : String
  declaredType : String
  content : List Nat
deriving Repr, DecidableEq

/-- Multipart form fields of an upload request.  The form may carry a
`sessionToken` field (the admin UI sends one); it is kept here so that the
handler's treatment of it is part of the model. -/
structure UploadRequest where
  file : Option FileData := none
  path : Option String := none
  totpCode : Option String := none
  sessionToken : Option String := none
deriving Repr, DecidableEq

/-- Observable JSON response of `upload-image`. -/
structure UploadResponse where
  status : Nat := 200
  success : Option Bool := none
  pathOut : Option String := none
  publicUrl : Option String := none
  error : Option String := none
deriving Repr, DecidableEq

/-- `/^\d{6}$/.test(totpCode)`. -/
def isSixDigitCode (s : String) : Bool :=
  s.length == 6 && s.data.all Char.isDigit

/-- A character allowed by the path pattern `^[a-zA-Z0-9\-_./]+$`. -/
def isValidPathChar (c : Char) : Bool :=
  c.isAlphanum || c == '-' || c == '_' || c == '.' || c == '/'

/-- `path.includes("..")` on the character list. -/
def containsDotDot : List Char → Bool
  | '.' :: '.' :: _ => true
  | _ :: rest => containsDotDot rest
  | [] => false

/-- `startsWith` on character lists. -/
def listStartsWith : List Char → List Char → Bool
  | _, [] => true
  | [], _ :: _ => false
  | c :: cs, p :: ps => c == p && listStartsWith cs ps

/-- `isValidPath(path)`: no `..`, no leading `/`, an allow-listed prefix,
and only pattern characters (the `+` of the pattern demands at least one
character). -/
def isValidPath (path : String) : Bool :=
  if containsDotDot path.data || listStartsWith path.data ['/'] then false
  else if !(listStartsWith path.data "projects/".data ||
            listStartsWith path.data "settings/".data) then false
  else path.length > 0 && path.data.all isValidPathChar

/-- `validateImageMagicBytes(bytes)`: inspect the leading bytes only.
Indexing past the end of the array yields `undefined` in the source, which
compares unequal to every byte value; the out-of-range default 256 plays
that role here. -/
def validateImageMagicBytes (bytes : List Nat) : Bool × Option String :=
  let b := fun i => bytes.getD i 256
  if b 0 == 255 && b 1 == 216 && b 2 == 255 then (true, some "image/jpeg")
  else if b 0 == 137 && b 1 == 80 && b 2 == 78 && b 3 == 71 then (true, some "image/png")
  else if b 0 == 82 && b 1 == 73 && b 2 == 70 && b 3 == 70 &&
          b 8 == 87 && b 9 == 69 && b 10 == 66 && b 11 == 80 then (true, some "image/webp")
  else if b 0 == 71 && b 1 == 73 && b 2 == 70 && b 3 == 56 then (true, some "image/gif")
  else (false, none)

/-- The public URL the handler returns for a stored path. -/
def publicUrlFor (path : String) : String :=
  String.append "public/site-images/" path

/-- `.upload(path, bytes, { contentType, upsert: true })` on the bucket. -/
def upsertFile (st : List StoredFile) (p : String) (c : List Nat) (ct : String) :
    List StoredFile :=
  if (st.find? (fun fi => fi.path == p)).isSome then
    st.map (fun fi => if fi.path == p then ⟨p, c, ct⟩ else fi)
  else
    st ++ [⟨p, c, ct⟩]

/-- The request handler of `upload-image` (the `serve` callback body after
form parsing).  It reads the form fields `file`, `path` and `totpCode`
only; the TOTP secret is read from `site_settings` directly. -/
def uploadImageServe (req : UploadRequest) (now : Nat) (db : DB) :
    UploadResponse × DB :=
  match req.file with
  | none => ({ status := 400, error := some "Missing required fields: file, path, totpCode" }, db)
  | some file =>
    if !jsTruthy req.path || !jsTruthy req.totpCode then
      ({ status := 400, error := some "Missing required fields: file, path, totpCode" }, db)
    else
      let path := req.path.getD ""
      let totpCode := req.totpCode.getD ""
      if !isSixDigitCode totpCode then
        ({ status := 400, error := some "Invalid TOTP code format" }, db)
      else if !isValidPath path then
        ({ status := 400, error := some "Invalid file path" }, db)
      else if file.content.length > MAX_FILE_SIZE then
        ({ status := 400, error := some "File too large. Maximum size is 5MB" }, db)
      else
        match lookupKV db.siteSettings "totp_secret" with
        | none => ({ status := 401, error := some "Authentication not configured" }, db)
        | some v =>
          if v == "" then
            ({ status := 401, error := some "Authentication not configured" }, db)
          else if !verifyTOTP totpCode v now then
            ({ status := 401, error := some "Invalid authentication code" }, db)
          else
            let validation := validateImageMagicBytes file.content
            if !validation.1 then
              ({ status := 400,
                 error := some "Invalid image file. Only JPEG, PNG, WebP, and GIF are allowed" }, db)
            else
              ({ success := some true, pathOut := some path,
                 publicUrl := some (publicUrlFor path) },
               { db with storage := upsertFile db.storage path file.content (validation.2.getD "") })

/-! ## The session-gated `admin-operations` service

The `data` payload is a JSON object; its optional fields are modelled with
`Option`, where `none` stands for an absent (or JSON `null`) field.  URL
well-formedness (`new URL` succeeding with an http/https protocol) is
approximated by the scheme prefix; no claim depends on the exact URL
grammar. -/

/-- `isValidUrl(url)`. -/
def isValidUrl (u : Option String) : Bool :=
  match u with
  | none => false
  | some s => s.startsWith "http://" || s.startsWith "https://"

/-- `sanitizeText(text, maxLength)`: trim, then keep at most `maxLength`
characters. -/
def sanitizeText (t : Option String) (maxLength : Nat) : String :=
  match t with
  | none => ""
  | some s => s.trim.take maxLength

/-- `isValidUsername(username)`: `^[a-zA-Z0-9_.]{1,100}$`. -/
def isValidUsername (u : Option String) : Bool :=
  match u with
  | none => false
  | some s =>
      decide (1 ≤ s.length) && decide (s.length ≤ 100) &&
        s.data.all (fun c => c.isAlphanum || c == '_' || c == '.')

/-- `isValidSettingKey(key)`: whitelist. -/
def isValidSettingKey (k : Option String) : Bool :=
  match k with
  | none => false
  | some s => s == "og_image" || s == "totp_secret"

/-- One element of the `images` array of `add_project_images`. -/
structure ImageInput where
  image_url : String
  is_primary : Option Bool := none
  display_order : Option Nat := none
deriving Repr, DecidableEq

/-- The `data` payload: union of the fields the actions destructure. -/
structure AdminData where
  id : Option String := none
  title : Option String := none
  description : Option String := none
  image_url : Option String := none
  category : Option String := none
  link : Option String := none
  project_id : Option String := none
  image_id : Option String := none
  images : Option (List ImageInput) := none
  is_primary : Option Bool := none
  display_order : Option Nat := none
  name : Option String := none
  instagram : Option String := none
  telegram : Option String := none
  key : Option String := none
  value : Option String := none
deriving Repr, DecidableEq

/-- JSON request body of `admin-operations`. -/
structure AdminRequest where
  action : String
  sessionToken : Option String := none
  data : AdminData := {}
deriving Repr, DecidableEq

/-- Observable JSON response of `admin-operations`. -/
structure AdminResponse where
  status : Nat := 200
  success : Option Bool := none
  sessionExpired : Option Bool := none
  error : Option String := none
deriving Repr, DecidableEq

/-- A 400 response with the given message. -/
def adminBad (msg : String) : AdminResponse :=
  { status := 400, error := some msg }

/-- The `add_project` case. -/
def addProjectCase (d : AdminData) (freshId : String) (db : DB) :
    AdminResponse × DB :=
  let t := d.title.getD ""
  if t == "" || t.trim == "" || decide (200 < t.length) then
    (adminBad "Invalid title. Must be 1-200 characters.", db)
  else if jsTruthy d.description && decide (1000 < (d.description.getD "").length) then
    (adminBad "Invalid description. Must be under 1000 characters.", db)
  else if jsTruthy d.image_url && !isValidUrl d.image_url then
    (adminBad "Invalid image URL. Must be a valid http/https URL.", db)
  else if jsTruthy d.link && !isValidUrl d.link then
    (adminBad "Invalid link URL. Must be a valid http/https URL.", db)
  else
    let proj : Project :=
      { id := freshId
        title := sanitizeText d.title 200
        description := if sanitizeText d.description 1000 == "" then none
                       else some (sanitizeText d.description 1000)
        image_url := if jsTruthy d.image_url then d.image_url else none
        category := if sanitizeText d.category 100 == "" then none
                    else some (sanitizeText d.category 100)
        link := if jsTruthy d.link then d.link else none }
    ({ success := some true }, { db with projects := db.projects ++ [proj] })

/-- Field updates of `update_project` applied to a row. -/
def applyProjectUpdates (d : AdminData) (p : Project) : Project :=
  let p := match d.title with
    | some _ => { p with title := sanitizeText d.title 200 }
    | none => p
  let descVal := if jsTruthy d.description then some (sanitizeText d.description 1000) else none
  let p := match d.description with
    | some _ => { p with description := descVal }
    | none => p
  let p := match d.image_url with
    | some _ => { p with image_url := if jsTruthy d.image_url then d.image_url else none }
    | none => p
  let catVal := if sanitizeText d.category 100 == "" then none else some (sanitizeText d.category 100)
  let p := match d.category with
    | some _ => { p with category := catVal }
    | none => p
  match d.link with
    | some _ => { p with link := if jsTruthy d.link then d.link else none }
    | none => p

/-- The `update_project` case. -/
def updateProjectCase (d : AdminData) (db : DB) : AdminResponse × DB :=
  if !jsTruthy d.id then (adminBad "Invalid project ID.", db)
  else if d.title.isSome &&
      ((d.title.getD "").trim == "" || decide (200 < (d.title.getD "").length)) then
    (adminBad "Invalid title. Must be 1-200 characters.", db)
  else if d.description.isSome && decide (1000 < (d.description.getD "").length) then
    (adminBad "Invalid description. Must be under 1000 characters.", db)
  else if d.image_url.isSome && !isValidUrl d.image_url then
    (adminBad "Invalid image URL. Must be a valid http/https URL.", db)
  else if d.link.isSome && !isValidUrl d.link then
    (adminBad "Invalid link URL. Must be a valid http/https URL.", db)
  else
    let upd : Project → Project := fun p =>
      if p.id == d.id.getD "" then applyProjectUpdates d p else p
    ({ success := some true }, { db with projects := db.projects.map upd })

/-- The `delete_project` case. -/
def deleteProjectCase (d : AdminData) (db : DB) : AdminResponse × DB :=
  if !jsTruthy d.id then (adminBad "Invalid project ID.", db)
  else
    ({ success := some true },
     { db with projects := db.projects.filter (fun p => !(p.id == d.id.getD "")) })

/-- The `add_project_images` case. -/
def addProjectImagesCase (d : AdminData) (freshId : String) (db : DB) :
    AdminResponse × DB :=
  if !jsTruthy d.project_id || d.images.isNone then
    (adminBad "Invalid project_id or images array.", db)
  else if (d.images.getD []).any (fun img => !isValidUrl (some img.image_url)) then
    (adminBad "Invalid image URL.", db)
  else
    let pid := d.project_id.getD ""
    let rows := (d.images.getD []).enum.map
      (fun pr => ImageInput.casesOn pr.2
        (fun url prim ord =>
          ({ id := String.append freshId (toString pr.1), project_id := pid,
             image_url := url, is_primary := prim.getD false,
             display_order := ord.getD pr.1 } : ProjectImage)))
    ({ success := some true }, { db with projectImages := db.projectImages ++ rows })

/-- The `update_project_image` case. -/
def updateProjectImageCase (d : AdminData) (db : DB) : AdminResponse × DB :=
  if !jsTruthy d.id then (adminBad "Invalid image ID.", db)
  else
    let upd : ProjectImage → ProjectImage := fun img =>
      if img.id == d.id.getD "" then
        { img with
            is_primary := d.is_primary.getD img.is_primary,
            display_order := d.display_order.getD img.display_order }
      else img
    ({ success := some true }, { db with projectImages := db.projectImages.map upd })

/-- The `delete_project_image` case. -/
def deleteProjectImageCase (d : AdminData) (db : DB) : AdminResponse × DB :=
  if !jsTruthy d.id then (adminBad "Invalid image ID.", db)
  else
    ({ success := some true },
     { db with projectImages := db.projectImages.filter (fun i => !(i.id == d.id.getD "")) })

/-- The `set_primary_image` case. -/
def setPrimaryImageCase (d : AdminData) (db : DB) : AdminResponse × DB :=
  if !jsTruthy d.project_id || !jsTruthy d.image_id then
    (adminBad "Invalid project_id or image_id.", db)
  else
    let cleared : ProjectImage → ProjectImage := fun img =>
      if img.project_id == d.project_id.getD "" then { img with is_primary := false } else img
    let setNew : ProjectImage → ProjectImage := fun img =>
      if img.id == d.image_id.getD "" then { img with is_primary := true } else img
    ({ success := some true },
     { db with projectImages := (db.projectImages.map cleared).map setNew })

/-- The `add_category` case (the unique-name conflict of the table is the
`23505` branch of the source). -/
def addCategoryCase (d : AdminData) (freshId : String) (db : DB) :
    AdminResponse × DB :=
  let n := d.name.getD ""
  if n == "" || n.trim == "" || decide (100 < n.length) then
    (adminBad "Invalid category name. Must be 1-100 characters.", db)
  else
    let nm := sanitizeText d.name 100
    if db.categories.any (fun c => c.name == nm) then
      (adminBad "Category already exists.", db)
    else
      ({ success := some true },
       { db with categories := db.categories ++ [⟨freshId, nm, false⟩] })

/-- The `delete_category` case. -/
def deleteCategoryCase (d : AdminData) (db : DB) : AdminResponse × DB :=
  if !jsTruthy d.id then (adminBad "Invalid category ID.", db)
  else
    match db.categories.find? (fun c => c.id == d.id.getD "") with
    | some c =>
        if c.is_default then (adminBad "Cannot delete default categories.", db)
        else
          ({ success := some true },
           { db with categories := db.categories.filter (fun c => !(c.id == d.id.getD "")) })
    | none =>
        ({ success := some true },
         { db with categories := db.categories.filter (fun c => !(c.id == d.id.getD "")) })

/-- The `update_social_links` case. -/
def updateSocialLinksCase (d : AdminData) (db : DB) : AdminResponse × DB :=
  if d.instagram.isSome && !(d.instagram.getD "" == "") && !isValidUsername d.instagram then
    (adminBad "Invalid Instagram username. Use only letters, numbers, underscores, and dots (1-100 chars).", db)
  else if d.telegram.isSome && !(d.telegram.getD "" == "") && !isValidUsername d.telegram then
    (adminBad "Invalid Telegram username. Use only letters, numbers, underscores, and dots (1-100 chars).", db)
  else
    let db1 :=
      if d.instagram.isSome then
        { db with socialLinks := upsertKV db.socialLinks "instagram" (sanitizeText d.instagram 100) }
      else db
    let db2 :=
      if d.telegram.isSome then
        { db1 with socialLinks := upsertKV db1.socialLinks "telegram" (sanitizeText d.telegram 100) }
      else db1
    ({ success := some true }, db2)

/-- The `update_setting` case (`value || null` is modelled as the empty
string, which every reader of these tables treats as absent). -/
def updateSettingCase (d : AdminData) (db : DB) : AdminResponse × DB :=
  if !isValidSettingKey d.key then
    (adminBad "Invalid setting key. Allowed: og_image, totp_secret.", db)
  else if d.key.getD "" == "og_image" && jsTruthy d.value && !isValidUrl d.value then
    (adminBad "Invalid OG image URL. Must be a valid http/https URL.", db)
  else if jsTruthy d.value && decide (1000 < (d.value.getD "").length) then
    (adminBad "Value too long. Maximum 1000 characters.", db)
  else
    ({ success := some true },
     { db with siteSettings := upsertKV db.siteSettings (d.key.getD "") (d.value.getD "") })

/-- The `switch (action)` dispatch of `admin-operations`. -/
def runAdminAction (action : String) (d : AdminData) (freshId : String) (db : DB) :
    AdminResponse × DB :=
  if action == "add_project" then addProjectCase d freshId db
  else if action == "update_project" then updateProjectCase d db
  else if action == "delete_project" then deleteProjectCase d db
  else if action == "add_project_images" then addProjectImagesCase d freshId db
  else if action == "update_project_image" then updateProjectImageCase d db
  else if action == "delete_project_image" then deleteProjectImageCase d db
  else if action == "set_primary_image" then setPrimaryImageCase d db
  else if action == "add_category" then addCategoryCase d freshId db
  else if action == "delete_category" then deleteCategoryCase d db
  else if action == "update_social_links" then updateSocialLinksCase d db
  else if action == "update_setting" then updateSettingCase d db
  else ({ status := 400, error := some "Invalid action" }, db)

/-- The request handler of `admin-operations` (the `serve` callback body):
the session gate runs first; an invalid or missing token is rejected with
401 / `sessionExpired: true` before the payload is looked at; on a valid
token the session is extended and only then the action dispatched. -/
def adminOpsServe (req : AdminRequest) (now : Nat) (freshId : String) (db : DB) :
    AdminResponse × DB :=
  if !validateSessionDb req.sessionToken db now then
    ({ status := 401, sessionExpired := some true, error := some "Session expired" }, db)
  else
    runAdminAction req.action req.data freshId
      (extendSessionDb (req.sessionToken.getD "") now db)


/-! ## Claims -/

/-- The 32-symbol Base32 encoding of the RFC 6238 test key, used as a
concrete enrolled secret in witnesses. -/
def sampleSecret : String := "GEZDGNBVGY3TQOJQGEZDGNBVGY3TQOJQ"

set_option maxRecDepth 100000 in
/-- **C6, counterexample.**  The 6-digit code space is too small for codes
to determine their window: the code derived at counter 336 of
`sampleSecret` coincides with the code at counter 2205, so at
`now = 66150000` (current counter 2205, more than one window after 336)
`verifyTOTP` accepts the old code, contradicting "rejected at counter
N+2 or greater". -/
theorem c6_counterexample :
    336 + 2 ≤ 66150000 / 30000 ∧
    verifyTOTP (totpAt sampleSecret 336) sampleSecret 66150000 = true := by
  constructor
  · decide
  · decide

/-- **C6 (amended).**  Code verification accepts a submitted code iff it
equals the code derived for the current counter or for the immediately
preceding one.  Consequently a code generated at counter `N` is always
accepted while the current counter is `N` or `N + 1`; at counter `N + 2`
or greater, and likewise at any counter before `N`, it is accepted exactly
when its 6-digit value happens to coincide with the code of the current or
previous window (6-digit codes are not unique across windows, see
`c6_counterexample`). -/
theorem c6_drift_window (s : String) (N M now : Nat) (hM : now / 30000 = M) :
    ((M = N ∨ M = N + 1) → verifyTOTP (totpAt s N) s now = true) ∧
    (N + 2 ≤ M → (verifyTOTP (totpAt s N) s now = true ↔
      (totpAt s N = totpAt s M ∨ totpAt s N = totpAt s (M - 1)))) ∧
    (M < N → (verifyTOTP (totpAt s N) s now = true ↔
      (totpAt s N = totpAt s M ∨ totpAt s N = totpAt s (M - 1)))) := by
  refine ⟨?_, ?_, ?_⟩
  · rintro (rfl | rfl)
    · simp [verifyTOTP, hM]
    · simp [verifyTOTP, hM]
  · intro _
    simp [verifyTOTP, hM]
  · intro _
    simp [verifyTOTP, hM]

/-- **C6, witness.**  A code generated at counter 2204 of `sampleSecret`
is still accepted one window later, at `now = 66150000` (counter 2205). -/
theorem c6_witness :
    verifyTOTP (totpAt sampleSecret 2204) sampleSecret 66150000 = true :=
  (c6_drift_window sampleSecret 2204 2205 66150000 (by decide)).1 (Or.inr rfl)

/-- A second enrolled-looking Base32 secret, distinct from `sampleSecret`,
used as the request-supplied secret in `c1_counterexample`. -/
def otherSecret : String := "MFRGGZDFMZTWQ2LK"

set_option maxRecDepth 100000 in
/-- **C1, counterexample.**  A `verify` request that passes the rate-limit
check and carries its own `secret` field is evaluated against that
request-supplied secret, not against the persisted one: with
`sampleSecret` persisted in the dedicated table, a request carrying
`otherSecret` together with `otherSecret`'s current code is answered with
`valid: true` and a fresh session token, although the submitted code
matches the persisted secret in neither the current nor the previous
window. -/
theorem c1_counterexample :
    let db : DB := { adminSecrets := [("totp_secret", sampleSecret)] }
    let req : TotpRequest := { action := "verify", code := some (totpAt otherSecret 2205),
                               secret := some otherSecret }
    let r := totpVerifyServe req "9.9.9.9" 66150000 "fresh" "tok" noFaults db
    (checkRateLimit "9.9.9.9" noFaults db 66150000).1 = false ∧
    getTOTPSecret db = some sampleSecret ∧
    verifyTOTP (totpAt otherSecret 2205) sampleSecret 66150000 = false ∧
    r.1.valid = some true ∧ r.1.sessionToken = some "tok" := by
  refine ⟨by decide, by decide, by decide, ?_, ?_⟩
  · decide
  · decide

/-- **C1 (amended).**  For every `verify` request that passes the
rate-limit check, carries a (truthy) code and does **not** carry a secret
of its own, the code is evaluated against the secret fetched by
`getTOTPSecret` (dedicated `admin_secrets` table first, legacy
`site_settings` as fallback), and a session token is issued exactly when
that code matches the persisted secret in the current or immediately
preceding 30-second window. -/
theorem c1_verify_persisted_secret (c sec st : Option String) (ip : String)
    (now : Nat) (fs tok : String) (f : Faults) (db : DB) (s : String)
    (hnb : (checkRateLimit ip f db now).1 = false)
    (hcode : jsTruthy c = true)
    (hsec : jsTruthy sec = false)
    (hcfg : getTOTPSecret db = some s) :
    ((totpVerifyServe { action := "verify", code := c, secret := sec, sessionToken := st }
        ip now fs tok f db).1.sessionToken = some tok ∧
      (totpVerifyServe { action := "verify", code := c, secret := sec, sessionToken := st }
        ip now fs tok f db).1.valid = some true) ↔
    verifyTOTP (c.getD "") s now = true := by
  cases hv : verifyTOTP (c.getD "") s now <;>
    simp [totpVerifyServe, verifyAction, hnb, hcode, hsec, hcfg, hv]

/-- The request of `c1_witness`: a secretless `verify` carrying the
current code of `sampleSecret`. -/
def c1WitnessReq : TotpRequest :=
  { action := "verify", code := some (totpAt sampleSecret 2205) }

/-- The database of `c1_witness`: `sampleSecret` persisted in the
dedicated table. -/
def c1WitnessDb : DB :=
  { adminSecrets := [("totp_secret", sampleSecret)] }

set_option maxRecDepth 100000 in
/-- **C1, witness.**  With `sampleSecret` persisted in `admin_secrets`, a
secretless `verify` request carrying the current code is issued a session
token. -/
theorem c1_witness :
    (totpVerifyServe c1WitnessReq "9.9.9.9" 66150000 "fresh" "tok" noFaults
      c1WitnessDb).1.sessionToken = some "tok" :=
  ((c1_verify_persisted_secret (some (totpAt sampleSecret 2205)) none none
      "9.9.9.9" 66150000 "fresh" "tok" noFaults c1WitnessDb sampleSecret
      (by decide) (by decide) (by decide) (by decide)).mpr (by decide)).1

/-- **C3.**  Behaviour of `setup` under single-table write failures, at
the concrete input `secret = sampleSecret` on an empty database.  When the
write to the dedicated `admin_secrets` table fails (and the legacy-table
write succeeds), the operation nevertheless reports success and returns a
session token while `admin_secrets` was left unwritten; when instead the
write to the legacy `site_settings` table fails, the operation fails with
status 500 and no session token, although the authoritative table was
already written.  This is the exact opposite of the claimed fatality
assignment. -/
theorem c3_setup_fault_behavior :
    (let r1 := totpVerifyServe { action := "setup", secret := some sampleSecret }
        "ip" 1000 "fresh" "tok" { adminSecretsUpsert := true } {}
     r1.1.success = some true ∧ r1.1.sessionToken = some "tok" ∧
       r1.1.status = 200 ∧ r1.2.adminSecrets = [] ∧
       r1.2.siteSettings = [("totp_secret", sampleSecret)]) ∧
    (let r2 := totpVerifyServe { action := "setup", secret := some sampleSecret }
        "ip" 1000 "fresh" "tok" { siteSettingsUpsert := true } {}
     r2.1.status = 500 ∧ r2.1.success = none ∧ r2.1.sessionToken = none ∧
       r2.2.adminSecrets = [("totp_secret", sampleSecret)] ∧ r2.2.sessions = []) := by
  constructor
  · refine ⟨rfl, rfl, rfl, rfl, rfl⟩
  · refine ⟨rfl, rfl, rfl, rfl, rfl⟩

set_option maxRecDepth 100000 in
/-- **C4, counterexample.**  The `setup` action persists the submitted
secret and returns a fresh session token without looking at the submitted
code at all: at `now = 66150000` the code `"000000"` matches
`sampleSecret` in neither the current nor the previous window, yet a
`setup` request submitting `sampleSecret` with code `"000000"` succeeds
and is issued a session token. -/
theorem c4_counterexample :
    let r := totpVerifyServe { action := "setup", secret := some sampleSecret,
                               code := some "000000" }
        "ip" 66150000 "fresh" "tok" noFaults {}
    verifyTOTP "000000" sampleSecret 66150000 = false ∧
    r.1.success = some true ∧ r.1.sessionToken = some "tok" ∧
    r.2.adminSecrets = [("totp_secret", sampleSecret)] := by
  refine ⟨by decide, rfl, rfl, rfl⟩

/-- **C4 (amended).**  A `setup` request whose secret is truthy and whose
two table writes succeed always succeeds and returns a newly created
session token, persisting the secret in both tables; the submitted code is
never re-derived or checked by the service (the response and the resulting
state are independent of the `code` field).  Code verification for the
setup flow happens only in a preceding `verify` call. -/
theorem c4_setup_ignores_code (sec c c' st st' : Option String) (ip ip' : String)
    (now : Nat) (fs fs' tok : String) (f : Faults) (db : DB)
    (hsec : jsTruthy sec = true)
    (hA : f.adminSecretsUpsert = false) (hS : f.siteSettingsUpsert = false) :
    (totpVerifyServe { action := "setup", code := c, secret := sec, sessionToken := st }
        ip now fs tok f db).1.success = some true ∧
    (totpVerifyServe { action := "setup", code := c, secret := sec, sessionToken := st }
        ip now fs tok f db).1.sessionToken = some tok ∧
    (totpVerifyServe { action := "setup", code := c, secret := sec, sessionToken := st }
        ip now fs tok f db).2.adminSecrets =
      upsertKV db.adminSecrets "totp_secret" (sec.getD "") ∧
    (totpVerifyServe { action := "setup", code := c, secret := sec, sessionToken := st }
        ip now fs tok f db).2.siteSettings =
      upsertKV db.siteSettings "totp_secret" (sec.getD "") ∧
    totpVerifyServe { action := "setup", code := c, secret := sec, sessionToken := st }
        ip now fs tok f db =
      totpVerifyServe { action := "setup", code := c', secret := sec, sessionToken := st' }
        ip' now fs' tok f db := by
  refine ⟨?_, ?_, ?_, ?_, ?_⟩ <;>
    simp [totpVerifyServe, setupAction, createSessionDb, hsec, hA, hS]

/-- **C4, witness.**  The amended statement at a concrete input: a `setup`
request carrying `sampleSecret` and an arbitrary wrong code succeeds on an
empty database. -/
theorem c4_witness :
    (totpVerifyServe { action := "setup", code := some "999999", secret := some sampleSecret } "ip" 1000 "fresh" "tok" noFaults {}).1.success = some true :=
  (c4_setup_ignores_code (some sampleSecret) (some "999999") none none none "ip" "x"
      1000 "fresh" "y" "tok" noFaults {} (by decide) (by decide) (by decide)).1

/-- The database of `c2_upload_ignores_session_token`: a configured TOTP
secret and one live admin session. -/
def c2Db : DB :=
  { siteSettings := [("totp_secret", sampleSecret)],
    sessions := [⟨"valid-session-token", 2000000000⟩] }

/-- The upload request of `c2_upload_ignores_session_token`: a well-formed
PNG file, an allow-listed path, and the live session token — exactly the
fields the admin UI submits — but no `totpCode` field. -/
def c2Req : UploadRequest :=
  { file := some ⟨"a.png", "image/png", [137, 80, 78, 71, 13, 10, 26, 10]⟩,
    path := some "projects/a.png",
    sessionToken := some "valid-session-token" }

/-- **C2.**  The upload handler never reads the `sessionToken` form field:
its outcome is invariant under replacing that field by anything whatsoever.
Concretely, an upload request carrying a PNG file, a valid path and a
currently valid session token — but no `totpCode` — is rejected with
status 400 ("Missing required fields") and nothing is stored, even though
the session token is valid at that instant. -/
theorem c2_upload_ignores_session_token :
    (∀ (req : UploadRequest) (x : Option String) (now : Nat) (db : DB),
        uploadImageServe { req with sessionToken := x } now db =
          uploadImageServe req now db) ∧
    validateSessionDb (some "valid-session-token") c2Db 66150000 = true ∧
    (uploadImageServe c2Req 66150000 c2Db).1.status = 400 ∧
    (uploadImageServe c2Req 66150000 c2Db).1.success = none ∧
    (uploadImageServe c2Req 66150000 c2Db).2 = c2Db := by
  refine ⟨?_, by decide, rfl, rfl, rfl⟩
  intro req x now db
  cases req
  rfl

/-- The 401 response of the authorization gate. -/
def sessionExpiredResponse : AdminResponse :=
  { status := 401, sessionExpired := some true, error := some "Session expired" }

/-- **C5.**  Every call to the mutation service passes through the
authorization gate first: with a missing, unknown, garbage, or expired
session token the call is rejected with status 401 and
`sessionExpired: true` and the database is returned untouched — the
`data` payload is never looked at; with a valid token the session's
expiry is first extended to `now + 30min` and only then is the requested
action dispatched against the extended state. -/
theorem c5_mutation_gate (req : AdminRequest) (now : Nat) (fid : String) (db : DB) :
    (validateSessionDb req.sessionToken db now = false →
      adminOpsServe req now fid db = (sessionExpiredResponse, db)) ∧
    (validateSessionDb req.sessionToken db now = true →
      adminOpsServe req now fid db =
        runAdminAction req.action req.data fid
          (extendSessionDb (req.sessionToken.getD "") now db)) := by
  constructor <;> intro h <;> simp [adminOpsServe, sessionExpiredResponse, h]

/-- The database of `c5_witness`: one live session and one project row. -/
def c5Db : DB :=
  { sessions := [⟨"tok", 2000⟩],
    projects := [⟨"p1", "T", none, none, none, none⟩] }

/-- A `delete_project` request with an unknown token. -/
def c5ReqBad : AdminRequest :=
  { action := "delete_project", sessionToken := some "bad", data := { id := some "p1" } }

/-- The same `delete_project` request with the live token. -/
def c5ReqGood : AdminRequest :=
  { action := "delete_project", sessionToken := some "tok", data := { id := some "p1" } }

/-- **C5, witness.**  At time 1000 the token `"bad"` is unknown, so a
`delete_project` call with it is rejected with the gate's 401 response and
the state is unchanged; the same call with the live token `"tok"` reduces
to the action run against the session-extended state. -/
theorem c5_witness :
    adminOpsServe c5ReqBad 1000 "f" c5Db = (sessionExpiredResponse, c5Db) ∧
    adminOpsServe c5ReqGood 1000 "f" c5Db =
      runAdminAction "delete_project" { id := some "p1" } "f"
        (extendSessionDb "tok" 1000 c5Db) :=
  ⟨(c5_mutation_gate c5ReqBad 1000 "f" c5Db).1 (by decide),
   (c5_mutation_gate c5ReqGood 1000 "f" c5Db).2 (by decide)⟩

/-- The 429 response of the rate limiter. -/
def rateLimitedResponse : TotpResponse :=
  { status := 429, valid := some false, rateLimited := some true,
    error := some "Too many failed attempts. Please wait 5 minutes." }

/-- **C7.**  When the attempt log holds at least 5 failures for this
identity inside the trailing 5 minutes (and the log read does not error),
a `verify` call is answered with the 429 rate-limited response and the
database is returned untouched — in particular no additional attempt row
is logged for the block itself; the response is the same whatever code was
submitted, so the code is never evaluated; and failures are counted per
identity: prepending an attempt row of a different identity leaves this
identity's failure count unchanged. -/
theorem c7_rate_limit_blocks (ip : String) (c sec st : Option String) (now : Nat)
    (fs tok : String) (f : Faults) (db : DB)
    (hf : f.rateLimitRead = false)
    (h5 : 5 ≤ recentFailures ip db now) :
    totpVerifyServe { action := "verify", code := c, secret := sec, sessionToken := st }
        ip now fs tok f db = (rateLimitedResponse, db) ∧
    (∀ c' : Option String,
      totpVerifyServe { action := "verify", code := c', secret := sec, sessionToken := st }
          ip now fs tok f db = (rateLimitedResponse, db)) ∧
    (∀ a : AuthAttempt, a.ipAddress ≠ ip →
      recentFailures ip { db with authAttempts := a :: db.authAttempts } now =
        recentFailures ip db now) := by
  have hb : (checkRateLimit ip f db now).1 = true := by
    simp [checkRateLimit, hf, h5]
  refine ⟨?_, ?_, ?_⟩
  · simp [totpVerifyServe, verifyAction, rateLimitedResponse, hb]
  · intro c'
    simp [totpVerifyServe, verifyAction, rateLimitedResponse, hb]
  · intro a ha
    have : (a.ipAddress == ip) = false := beq_eq_false_iff_ne.mpr ha
    simp [recentFailures, List.filter_cons, this]

/-- The database of `c7_witness`: five fresh failures for `"1.2.3.4"` and
one for `"5.6.7.8"`. -/
def c7Db : DB :=
  { authAttempts :=
      [⟨"1.2.3.4", "totp_verify", false, 900000⟩,
       ⟨"1.2.3.4", "totp_verify", false, 910000⟩,
       ⟨"1.2.3.4", "totp_verify", false, 920000⟩,
       ⟨"1.2.3.4", "totp_verify", false, 930000⟩,
       ⟨"1.2.3.4", "totp_verify", false, 940000⟩,
       ⟨"5.6.7.8", "totp_verify", false, 940000⟩] }

/-- **C7, witness.**  At time 1000000, identity `"1.2.3.4"` has five
failures in the window and its `verify` call is answered with the 429
response, leaving the state untouched. -/
theorem c7_witness :
    totpVerifyServe { action := "verify", code := some "123456" }
        "1.2.3.4" 1000000 "fresh" "tok" noFaults c7Db = (rateLimitedResponse, c7Db) :=
  (c7_rate_limit_blocks "1.2.3.4" (some "123456") none none 1000000 "fresh" "tok"
      noFaults c7Db (by decide) (by decide)).1

/-- Token lookup misses a list none of whose sessions carry the token. -/
lemma find?_token_eq_none (l : List Session) (tok : String)
    (h : ∀ x ∈ l, x.sessionToken ≠ tok) :
    l.find? (fun x => x.sessionToken == tok) = none := by
  apply List.find?_eq_none.mpr
  intro x hx
  simpa using h x hx

/-- **C8.**  Sessions: (i) a session freshly created at `t0` is stored
with `expires_at = t0 + 30min`; (ii) it validates at `t0 + 29min` and
(iii) no longer at `t0 + 31min`; (iv) a token carried by no stored session
(in particular an absent one) validates to `false` without error, and
(v) a token that validates is backed by a stored session with
`expires_at` strictly later than now; (vi) a `validate_session` call at
`t0 + 29min` answers `valid: true` and extends the session, which then
validates strictly before `(t0 + 29min) + 30min` and not at
`(t0 + 29min) + 30min`. -/
theorem c8_session_ttl (db : DB) (tok : String) (t0 : Nat) (ip fs ftok : String)
    (f : Faults) (htok : tok ≠ "")
    (hfresh : ∀ s ∈ db.sessions, s.sessionToken ≠ tok) :
    (∃ s ∈ (createSessionDb tok t0 db).sessions,
        s.sessionToken = tok ∧ s.expiresAt = t0 + 1800000) ∧
    validateSessionDb (some tok) (createSessionDb tok t0 db) (t0 + 1740000) = true ∧
    validateSessionDb (some tok) (createSessionDb tok t0 db) (t0 + 1860000) = false ∧
    (∀ (u : Option String) (t : Nat) (dbx : DB),
        (∀ s ∈ dbx.sessions, s.sessionToken ≠ u.getD "") →
        validateSessionDb u dbx t = false) ∧
    (∀ (u : Option String) (t : Nat) (dbx : DB), validateSessionDb u dbx t = true →
        ∃ s ∈ dbx.sessions, s.sessionToken = u.getD "" ∧ t < s.expiresAt) ∧
    ((totpVerifyServe { action := "validate_session", sessionToken := some tok }
        ip (t0 + 1740000) fs ftok f (createSessionDb tok t0 db)).1.valid = some true ∧
     validateSessionDb (some tok)
        (totpVerifyServe { action := "validate_session", sessionToken := some tok }
          ip (t0 + 1740000) fs ftok f (createSessionDb tok t0 db)).2
        (t0 + 3539999) = true ∧
     validateSessionDb (some tok)
        (totpVerifyServe { action := "validate_session", sessionToken := some tok }
          ip (t0 + 1740000) fs ftok f (createSessionDb tok t0 db)).2
        (t0 + 3540000) = false) := by
  have hjs : jsTruthy (some tok) = true := by
    simp [jsTruthy, htok]
  have hpurge : ∀ x ∈ db.sessions.filter (fun s => decide (t0 ≤ s.expiresAt)),
      x.sessionToken ≠ tok := by
    intro x hx
    exact hfresh x (List.mem_of_mem_filter hx)
  have hfind : (createSessionDb tok t0 db).sessions.find?
      (fun x => x.sessionToken == tok) = some ⟨tok, t0 + SESSION_DURATION_MS⟩ := by
    simp only [createSessionDb]
    rw [List.find?_append, find?_token_eq_none _ _ hpurge]
    simp [List.find?]
  have hvalid29 : validateSessionDb (some tok) (createSessionDb tok t0 db)
      (t0 + 1740000) = true := by
    simp only [validateSessionDb, hjs, Bool.not_true, Bool.false_eq_true, if_false,
      Option.getD_some, hfind]
    simp only [SESSION_DURATION_MS, decide_eq_true_eq]
    omega
  refine ⟨?_, hvalid29, ?_, ?_, ?_, ?_⟩
  · refine ⟨⟨tok, t0 + SESSION_DURATION_MS⟩, ?_, rfl, rfl⟩
    simp [createSessionDb]
  · simp only [validateSessionDb, hjs, Bool.not_true, Bool.false_eq_true, if_false,
      Option.getD_some, hfind]
    simp only [SESSION_DURATION_MS, decide_eq_false_iff_not]
    omega
  · intro u t dbx hu
    by_cases hj : jsTruthy u = true
    · simp only [validateSessionDb, hj, Bool.not_true, Bool.false_eq_true, if_false,
        find?_token_eq_none _ _ hu]
    · have hj' : jsTruthy u = false := by
        cases hju : jsTruthy u
        · rfl
        · exact absurd hju hj
      simp [validateSessionDb, hj']
  · intro u t dbx h
    by_cases hj : jsTruthy u = true
    · cases hfind2 : dbx.sessions.find? (fun s => s.sessionToken == u.getD "") with
      | none =>
          simp only [validateSessionDb, hj, Bool.not_true, Bool.false_eq_true, if_false,
            hfind2] at h
      | some s =>
          refine ⟨s, List.mem_of_find?_eq_some hfind2,
            by simpa using List.find?_some hfind2, ?_⟩
          simp only [validateSessionDb, hj, Bool.not_true, Bool.false_eq_true, if_false,
            hfind2, decide_eq_true_eq] at h
          exact h
    · have hj' : jsTruthy u = false := by
        cases hju : jsTruthy u
        · rfl
        · exact absurd hju hj
      simp [validateSessionDb, hj'] at h
  · have hdispatch : totpVerifyServe { action := "validate_session", sessionToken := some tok }
        ip (t0 + 1740000) fs ftok f (createSessionDb tok t0 db) =
        ({ valid := some true },
         extendSessionDb tok (t0 + 1740000) (createSessionDb tok t0 db)) := by
      simp [totpVerifyServe, validateSessionAction, hvalid29]
    rw [hdispatch]
    have hpurge2 : ∀ x ∈ (db.sessions.filter (fun s => decide (t0 ≤ s.expiresAt))).map
        (fun s => if s.sessionToken == tok
          then { s with expiresAt := t0 + 1740000 + SESSION_DURATION_MS } else s),
        x.sessionToken ≠ tok := by
      intro x hx
      rcases List.mem_map.mp hx with ⟨y, hy, rfl⟩
      have hyt := hpurge y hy
      simp [beq_eq_false_iff_ne.mpr hyt]
      exact hyt
    have hfind3 : (extendSessionDb tok (t0 + 1740000) (createSessionDb tok t0 db)).sessions.find?
        (fun x => x.sessionToken == tok) =
          some ⟨tok, t0 + 1740000 + SESSION_DURATION_MS⟩ := by
      have hsess : (extendSessionDb tok (t0 + 1740000) (createSessionDb tok t0 db)).sessions =
          ((db.sessions.filter (fun s => decide (t0 ≤ s.expiresAt))).map
            (fun s => if s.sessionToken == tok
              then { s with expiresAt := t0 + 1740000 + SESSION_DURATION_MS } else s)) ++
            [⟨tok, t0 + 1740000 + SESSION_DURATION_MS⟩] := by
        simp [extendSessionDb, createSessionDb]
      rw [hsess, List.find?_append, find?_token_eq_none _ _ hpurge2]
      simp [List.find?]
    refine ⟨rfl, ?_, ?_⟩
    · simp only [validateSessionDb, hjs, Bool.not_true, Bool.false_eq_true, if_false,
        Option.getD_some, hfind3]
      simp only [SESSION_DURATION_MS, decide_eq_true_eq]
      omega
    · simp only [validateSessionDb, hjs, Bool.not_true, Bool.false_eq_true, if_false,
        Option.getD_some, hfind3]
      simp only [SESSION_DURATION_MS, decide_eq_false_iff_not]
      omega

/-- **C8, witness.**  On an empty store, a session created at `t0 = 0`
with token `"w8tok"` validates at `t0 + 29min`. -/
theorem c8_witness :
    validateSessionDb (some "w8tok") (createSessionDb "w8tok" 0 {}) 1740000 = true :=
  (c8_session_ttl {} "w8tok" 0 "ip" "fs" "ftok" noFaults (by decide)
    (by intro s hs; simp at hs)).2.1

/-- An upload request carrying a file part with the given name, declared
MIME type and bytes. -/
def mkUploadReq (n ty : String) (bytes : List Nat) (p c st : Option String) :
    UploadRequest :=
  { file := some ⟨n, ty, bytes⟩, path := p, totpCode := c, sessionToken := st }

/-- **C9.**  Content sniffing: (i) the upload outcome is invariant under
the file's name and client-declared MIME type (only the bytes matter);
(ii) on an otherwise valid, authenticated request whose leading bytes
match a known signature, the upload succeeds and the file is stored with
the content type computed by `validateImageMagicBytes` from the bytes
alone, while a request whose bytes match no signature is rejected with
status 400 and an unchanged store; (iii) whenever the file's bytes match
no known signature — whatever the rest of the request looks like —
nothing is ever stored and no success is reported. -/
theorem c9_magic_bytes (n1 ty1 n2 ty2 : String) (bytes : List Nat)
    (p c st st' : Option String) (now : Nat) (db : DB) :
    (uploadImageServe (mkUploadReq n1 ty1 bytes p c st) now db =
      uploadImageServe (mkUploadReq n2 ty2 bytes p c st') now db) ∧
    (∀ v : String, lookupKV db.siteSettings "totp_secret" = some v → v ≠ "" →
      jsTruthy p = true → jsTruthy c = true →
      isSixDigitCode (c.getD "") = true → isValidPath (p.getD "") = true →
      bytes.length ≤ MAX_FILE_SIZE →
      verifyTOTP (c.getD "") v now = true →
      ((validateImageMagicBytes bytes).1 = true →
        (uploadImageServe (mkUploadReq n1 ty1 bytes p c st) now db).1.success = some true ∧
        (uploadImageServe (mkUploadReq n1 ty1 bytes p c st) now db).2.storage =
          upsertFile db.storage (p.getD "") bytes
            ((validateImageMagicBytes bytes).2.getD "")) ∧
      ((validateImageMagicBytes bytes).1 = false →
        (uploadImageServe (mkUploadReq n1 ty1 bytes p c st) now db).1.status = 400 ∧
        (uploadImageServe (mkUploadReq n1 ty1 bytes p c st) now db).2 = db)) ∧
    (∀ (req : UploadRequest) (now' : Nat) (db' : DB),
      (∀ fd, req.file = some fd → (validateImageMagicBytes fd.content).1 = false) →
      (uploadImageServe req now' db').2 = db' ∧
        (uploadImageServe req now' db').1.success = none) := by
  refine ⟨rfl, ?_, ?_⟩
  · intro v hsec hv hpt hct hc6 hpath hsize hcode
    have hv' : (v == "") = false := beq_eq_false_iff_ne.mpr hv
    have hsize' : ¬(bytes.length > MAX_FILE_SIZE) := by omega
    constructor
    · intro hmagic
      constructor <;>
        simp [uploadImageServe, mkUploadReq, hpt, hct, hc6, hpath, hsize', hsec, hv',
          hcode, hmagic]
    · intro hmagic
      constructor <;>
        simp [uploadImageServe, mkUploadReq, hpt, hct, hc6, hpath, hsize', hsec, hv',
          hcode, hmagic]
  · intro req now' db' hm
    cases hf : req.file with
    | none =>
        constructor <;> simp [uploadImageServe, hf]
    | some fd =>
        have hmf : (validateImageMagicBytes fd.content).1 = false := hm fd hf
        constructor <;>
          (simp only [uploadImageServe, hf, hmf]
           repeat' split
           all_goals simp_all)

/-- The database of `c9_witness`: a configured secret, empty store. -/
def c9Db : DB := { siteSettings := [("totp_secret", sampleSecret)] }

set_option maxRecDepth 100000 in
/-- **C9, witness.**  A file named `photo.png`, declared as `image/png`,
but starting with the JPEG magic bytes, uploaded with a valid code at
`now = 66150000`, is accepted and stored with content type `image/jpeg`. -/
theorem c9_witness :
    (uploadImageServe (mkUploadReq "photo.png" "image/png" [255, 216, 255, 224] (some "projects/photo.png") (some (totpAt sampleSecret 2205)) none) 66150000 c9Db).1.success = some true ∧
    (uploadImageServe (mkUploadReq "photo.png" "image/png" [255, 216, 255, 224] (some "projects/photo.png") (some (totpAt sampleSecret 2205)) none) 66150000 c9Db).2.storage = [⟨"projects/photo.png", [255, 216, 255, 224], "image/jpeg"⟩] := by
  have h := ((c9_magic_bytes "photo.png" "image/png" "x" "y" [255, 216, 255, 224]
      (some "projects/photo.png") (some (totpAt sampleSecret 2205)) none none 66150000
      c9Db).2.1 sampleSecret rfl (by decide) (by decide) (by decide) (by decide)
      (by decide) (by decide) (by decide)).1 (by decide)
  exact ⟨h.1, by rw [h.2]; rfl⟩

/-- **C10.**  The rate limiter fails open: when the attempt-log read
errors, `checkRateLimit` reports not-blocked with count 0 whatever the log
contains; when the attempt-log insert errors, `logAttempt` swallows the
error and leaves the state unchanged; consequently a `verify` request
under both faults (with a code present and a secret configured) is neither
rate-limited nor failed — it is answered 200 with no `rateLimited` flag
and no error, exactly as the rate-limit-free evaluation of the code
dictates, and no attempt row is appended. -/
theorem c10_rate_limiter_fails_open (ip : String) (c st : Option String) (now : Nat)
    (fs tok : String) (f : Faults) (db : DB) (s : String)
    (hread : f.rateLimitRead = true) (hins : f.attemptInsert = true)
    (hcode : jsTruthy c = true) (hcfg : getTOTPSecret db = some s) :
    checkRateLimit ip f db now = (false, 0) ∧
    (∀ (b : Bool) (dbx : DB), logAttemptDb ip b f now dbx = dbx) ∧
    ((totpVerifyServe { action := "verify", code := c, secret := none, sessionToken := st }
        ip now fs tok f db).1.status = 200 ∧
     (totpVerifyServe { action := "verify", code := c, secret := none, sessionToken := st }
        ip now fs tok f db).1.rateLimited = none ∧
     (totpVerifyServe { action := "verify", code := c, secret := none, sessionToken := st }
        ip now fs tok f db).1.error = none ∧
     (totpVerifyServe { action := "verify", code := c, secret := none, sessionToken := st }
        ip now fs tok f db).2.authAttempts = db.authAttempts) := by
  have hrl : checkRateLimit ip f db now = (false, 0) := by
    simp [checkRateLimit, hread]
  have hlog : ∀ (b : Bool) (dbx : DB), logAttemptDb ip b f now dbx = dbx := by
    intro b dbx
    simp [logAttemptDb, hins]
  refine ⟨hrl, hlog, ?_⟩
  cases hv : verifyTOTP (c.getD "") s now <;>
    simp [totpVerifyServe, verifyAction, createSessionDb, jsTruthy_none, hrl, hlog,
      hcode, hcfg, hv]

/-- The database of `c10_witness`: the secret is configured and the log
already holds five would-be-blocking failures for the caller. -/
def c10Db : DB :=
  { adminSecrets := [("totp_secret", sampleSecret)],
    authAttempts :=
      [⟨"1.2.3.4", "totp_verify", false, 900000⟩,
       ⟨"1.2.3.4", "totp_verify", false, 910000⟩,
       ⟨"1.2.3.4", "totp_verify", false, 920000⟩,
       ⟨"1.2.3.4", "totp_verify", false, 930000⟩,
       ⟨"1.2.3.4", "totp_verify", false, 940000⟩] }

/-- The faults of `c10_witness`: both rate-limiter storage calls error. -/
def c10Faults : Faults := { rateLimitRead := true, attemptInsert := true }

/-- **C10, witness.**  Under both faults, the otherwise-blocked identity
`"1.2.3.4"` is not rate-limited and its wrong-code `verify` request at
time 1000000 draws a plain 200 response with no logged attempt. -/
theorem c10_witness :
    (totpVerifyServe { action := "verify", code := some "000000", secret := none, sessionToken := none } "1.2.3.4" 1000000 "fresh" "tok" c10Faults c10Db).1.status = 200 ∧
    (totpVerifyServe { action := "verify", code := some "000000", secret := none, sessionToken := none } "1.2.3.4" 1000000 "fresh" "tok" c10Faults c10Db).2.authAttempts = c10Db.authAttempts :=
  have h := c10_rate_limiter_fails_open "1.2.3.4" (some "000000") none 1000000 "fresh"
    "tok" c10Faults c10Db sampleSecret (by decide) (by decide) (by decide) (by decide)
  ⟨h.2.2.1, h.2.2.2.2.2⟩

end Portfolio
